import Mathlib

/-!
Shallow embedding of the Bokio API client core (`bokio/client.go`): token
store, rate limiter, retry policy and the request façade `makeRequest`,
together with proofs of the specified properties.

Modelling conventions:
* `time.Time` is modelled as an `Int` of seconds; each operation takes the
  current instant `now` as a parameter (`time.Now()`).
* HTTP calls are modelled by their results: a token-endpoint call result and
  a resource-call transport (`Nat → Except String HttpResp`, one entry per
  attempt) are supplied as parameters.  `Except.error` is a network-level
  (transport) error, `Except.ok` a received response.
* A response body is carried together with the results of the two
  `json.Unmarshal` calls the source performs on it (`TokenResponse` and
  `APIError`); `none` means the unmarshal fails.
* The rate limiter (`chan struct\x7b\x7d` of capacity `RateLimit`) is modelled by
  `Option Nat`: `none` when disabled (`RateLimit <= 0`), `some n` for `n`
  permits currently buffered.
* `context.Context` is modelled by its cancellation flag only.
-/

/-- OAuth2 token response from the Bokio API (`TokenResponse`, client.go:101). -/
structure TokenResponse where
  tenantID : String
  tenantType : String
  accessToken : String
  tokenType : String
  expiresIn : Int
  refreshToken : String
deriving DecidableEq

/-- Error response from the Bokio API (`APIError`, client.go:111). -/
structure APIError where
  code : Nat
  message : String
  details : String
deriving DecidableEq

/-- A response body together with the outcomes of unmarshalling it as a
`TokenResponse` and as an `APIError` (`none` = `json.Unmarshal` fails). -/
structure RespBody where
  raw : String
  asToken : Option TokenResponse
  asApiError : Option APIError
deriving DecidableEq

/-- An HTTP response: status code and body (`resty.Response` as used). -/
structure HttpResp where
  status : Nat
  body : RespBody
deriving DecidableEq

/-- The errors the client core can return, one constructor per `return`-site
error shape in client.go. -/
inductive GoError where
  /-- validateWriteOperation, client.go:233. -/
  | readOnlyMode (operation : String)
  /-- ensureValidToken, client.go:390. -/
  | notAuthenticated
  /-- RefreshAccessToken, client.go:296. -/
  | noRefreshToken
  /-- RefreshAccessToken, client.go:315 (network failure wrapping). -/
  | refreshRequestFailed (msg : String)
  /-- ExchangeCodeForToken, client.go:264 (network failure wrapping). -/
  | exchangeRequestFailed (msg : String)
  /-- token response unmarshal failure, client.go:273/324. -/
  | tokenParseFailed
  /-- handleAPIError result, client.go:512. -/
  | api (e : APIError)
  /-- ctx.Err() after cancellation, client.go:414. -/
  | ctxCanceled
  /-- makeRequest, client.go:456 (network failure wrapping). -/
  | httpRequestFailed (msg : String)
  /-- makeRequest, client.go:452. -/
  | unsupportedMethod (method : String)
deriving DecidableEq

/-- The user-facing message of each error.  The Go source wraps the
operation of a read-only error in single-quote characters; the quote
characters themselves are elided here. -/
def GoError.message : GoError → String
  | .readOnlyMode op =>
      "operation " ++ op ++ " not allowed in read-only mode. Set BOKIO_READ_ONLY=false to enable write operations"
  | .notAuthenticated => "no access token available, please authenticate first"
  | .noRefreshToken => "no refresh token available"
  | .refreshRequestFailed m => "failed to refresh token: " ++ m
  | .exchangeRequestFailed m => "failed to exchange code for token: " ++ m
  | .tokenParseFailed => "failed to parse token response"
  | .api e =>
      if e.details ≠ "" then
        "Bokio API error " ++ toString e.code ++ ": " ++ e.message ++ " (" ++ e.details ++ ")"
      else
        "Bokio API error " ++ toString e.code ++ ": " ++ e.message
  | .ctxCanceled => "context canceled"
  | .httpRequestFailed m => "HTTP request failed: " ++ m
  | .unsupportedMethod m => "unsupported HTTP method: " ++ m

/-- The mutable and configuration state of a `Client` (client.go:21). -/
structure ClientState where
  baseURL : String
  clientID : String
  clientSecret : String
  accessToken : String
  refreshToken : String
  tokenExpiry : Int
  tenantID : String
  tenantType : String
  /-- `none` = limiter disabled; `some n` = `n` permits buffered. -/
  rateLimiter : Option Nat
  maxRetries : Nat
  readOnly : Bool
deriving DecidableEq

/-- A `context.Context`, reduced to its cancellation flag. -/
structure Ctx where
  canceled : Bool
deriving DecidableEq

/-- IsReadOnly (client.go:226). -/
def IsReadOnly (c : ClientState) : Bool := c.readOnly

/-- validateWriteOperation (client.go:231): rejects when read-only. -/
def validateWriteOperation (c : ClientState) (operation : String) : Option GoError :=
  if c.readOnly then some (.readOnlyMode operation) else none

/-- handleAPIError (client.go:493): parse the body as `APIError`, fall back
to a generic error carrying the raw body, default the code to the HTTP
status when absent. -/
def handleAPIError (resp : HttpResp) : APIError :=
  let apiError :=
    match resp.body.asApiError with
    | some e => e
    | none => { code := resp.status, message := "API request failed", details := resp.body.raw }
  if apiError.code = 0 then { apiError with code := resp.status } else apiError

/-- Result of a token-store operation: new client state, error, and the
number of token-endpoint HTTP calls performed. -/
structure AuthResult where
  state : ClientState
  err : Option GoError
  tokenCalls : Nat
deriving DecidableEq

/-- RefreshAccessToken (client.go:290): requires a refresh token, posts
`grant_type=refresh_token`, and on a 200 response with a parseable body
stores the new access token and expiry, keeping the old refresh token when
the response carries none.  `http` is the result of the token-endpoint call
(performed only when a refresh token exists). -/
def RefreshAccessToken (c : ClientState) (now : Int) (http : Except String HttpResp) : AuthResult :=
  if c.refreshToken = "" then ⟨c, some .noRefreshToken, 0⟩
  else
    match http with
    | .error e => ⟨c, some (.refreshRequestFailed e), 1⟩
    | .ok resp =>
      if resp.status ≠ 200 then ⟨c, some (.api (handleAPIError resp)), 1⟩
      else
        match resp.body.asToken with
        | none => ⟨c, some .tokenParseFailed, 1⟩
        | some tr =>
          ⟨{ c with
              accessToken := tr.accessToken,
              refreshToken := if tr.refreshToken ≠ "" then tr.refreshToken else c.refreshToken,
              tokenExpiry := now + tr.expiresIn }, none, 1⟩

/-- ExchangeCodeForToken (client.go:244): posts the authorization code and
on a 200 response with a parseable body stores all five token fields. -/
def ExchangeCodeForToken (c : ClientState) (now : Int) (http : Except String HttpResp) : AuthResult :=
  match http with
  | .error e => ⟨c, some (.exchangeRequestFailed e), 1⟩
  | .ok resp =>
    if resp.status ≠ 200 then ⟨c, some (.api (handleAPIError resp)), 1⟩
    else
      match resp.body.asToken with
      | none => ⟨c, some .tokenParseFailed, 1⟩
      | some tr =>
        ⟨{ c with
            accessToken := tr.accessToken,
            refreshToken := tr.refreshToken,
            tokenExpiry := now + tr.expiresIn,
            tenantID := tr.tenantID,
            tenantType := tr.tenantType }, none, 1⟩

/-- ensureValidToken (client.go:382): fail when no access token; refresh
when within five minutes of expiry and a refresh token exists; otherwise
succeed with no state change. -/
def ensureValidToken (c : ClientState) (now : Int) (http : Except String HttpResp) : AuthResult :=
  if c.accessToken = "" then ⟨c, some .notAuthenticated, 0⟩
  else if now + 5 * 60 > c.tokenExpiry ∧ c.refreshToken ≠ "" then
    RefreshAccessToken c now http
  else ⟨c, none, 0⟩

/-- IsAuthenticated (client.go:522): non-empty access token AND current
time strictly before expiry. -/
def IsAuthenticated (c : ClientState) (now : Int) : Bool :=
  c.accessToken != "" && decide (now < c.tokenExpiry)

/-- GetTenantInfo (client.go:516). -/
def GetTenantInfo (c : ClientState) : String × String :=
  (c.tenantID, c.tenantType)

/-- SetTokens (client.go:530): overwrite access token, refresh token and
expiry; tenant fields untouched. -/
def SetTokens (c : ClientState) (accessToken refreshToken : String) (expiresAt : Int) : ClientState :=
  { c with accessToken := accessToken, refreshToken := refreshToken, tokenExpiry := expiresAt }

/-- GetTokens (client.go:539). -/
def GetTokens (c : ClientState) : String × String × Int :=
  (c.accessToken, c.refreshToken, c.tokenExpiry)

/-- The environment a request runs against: the token-endpoint call result
(used only if a refresh happens), the resource-call transport (one entry per
attempt), and the branch the `select` takes when both the permit channel and
`ctx.Done()` are ready (Go chooses uniformly at random). -/
structure ReqEnv where
  refreshHttp : Except String HttpResp
  transport : Nat → Except String HttpResp
  pick : Bool

/-- The rate-limiting `select` of makeRequest (client.go:410).  Disabled
limiter: pass through.  Cancelled context with no buffered permit: the
`ctx.Done()` case, returning `ctx.Err()`.  Cancelled context with a permit
buffered: both cases are ready and Go picks one at random (`pick`).  Not
cancelled: take a permit, waiting for the replenishment ticker when the
buffer is empty (hence `n - 1` in truncated subtraction). -/
def acquirePermit (c : ClientState) (ctx : Ctx) (pick : Bool) : ClientState × Option GoError :=
  match c.rateLimiter with
  | none => (c, none)
  | some n =>
    if ctx.canceled then
      if 0 < n ∧ pick then ({ c with rateLimiter := some (n - 1) }, none)
      else (c, some .ctxCanceled)
    else ({ c with rateLimiter := some (n - 1) }, none)

/-- The retry condition installed at client construction (client.go:176):
retry on any 5xx status or on 429. -/
def shouldRetry (status : Nat) : Bool :=
  500 ≤ status || status == 429

/-- The retry loop resty runs for one logical request: attempt, and while
the retry condition holds and retry budget remains, attempt again.  Network
errors present status 0 to the condition and hence are not retried.
Returns the final attempt result and the total number of transport calls. -/
def retryLoop (t : Nat → Except String HttpResp) (attempt budget : Nat) :
    Except String HttpResp × Nat :=
  match t attempt with
  | .error e => (.error e, attempt + 1)
  | .ok resp =>
    match budget with
    | 0 => (.ok resp, attempt + 1)
    | b + 1 =>
      if shouldRetry resp.status then retryLoop t (attempt + 1) b
      else (.ok resp, attempt + 1)

/-- One logical HTTP call through resty with `SetRetryCount maxRetries`
(client.go:171): up to `maxRetries` retries after the first attempt. -/
def restyExecute (t : Nat → Except String HttpResp) (maxRetries : Nat) :
    Except String HttpResp × Nat :=
  retryLoop t 0 maxRetries

/-- `strings.ToUpper`, as applied to HTTP method names: upper-case every
character (defined by character-list map so that it evaluates by kernel
reduction). -/
def goToUpper (s : String) : String := ⟨s.data.map Char.toUpper⟩

/-- Whether `strings.ToUpper method` is one of the five verbs the dispatch
switch of makeRequest handles (client.go:440). -/
def supportedMethod (method : String) : Bool :=
  let u := goToUpper method
  u == "GET" || u == "POST" || u == "PUT" || u == "DELETE" || u == "PATCH"

/-- Result of a makeRequest call: final client state, the two Go return
values (`*resty.Response`, `error`), and the observed I/O counts. -/
structure ReqOutcome where
  state : ClientState
  resp : Option HttpResp
  err : Option GoError
  transportCalls : Nat
  tokenCalls : Nat
deriving DecidableEq

/-- The dispatch and classification tail of makeRequest (client.go:440):
switch on the upper-cased method, run the call through the retry policy,
wrap network errors, and classify any status >= 400 through handleAPIError,
returning the response alongside the error. -/
def dispatchRequest (c : ClientState) (env : ReqEnv) (tokenCalls : Nat) (method : String) :
    ReqOutcome :=
  if supportedMethod method then
    match restyExecute env.transport c.maxRetries with
    | (.error e, n) => ⟨c, none, some (.httpRequestFailed e), n, tokenCalls⟩
    | (.ok resp, n) =>
      if 400 ≤ resp.status then ⟨c, some resp, some (.api (handleAPIError resp)), n, tokenCalls⟩
      else ⟨c, some resp, none, n, tokenCalls⟩
  else ⟨c, none, some (.unsupportedMethod method), 0, tokenCalls⟩

/-- makeRequest after the read-only gate (client.go:409): rate limiting,
then token validation, then dispatch. -/
def makeRequestAfterGate (c : ClientState) (ctx : Ctx) (now : Int) (env : ReqEnv)
    (method : String) : ReqOutcome :=
  match acquirePermit c ctx env.pick with
  | (c₁, some e) => ⟨c₁, none, some e, 0, 0⟩
  | (c₁, none) =>
    let ar := ensureValidToken c₁ now env.refreshHttp
    match ar.err with
    | some e => ⟨ar.state, none, some e, 0, ar.tokenCalls⟩
    | none => dispatchRequest ar.state env ar.tokenCalls method

/-- makeRequest (client.go:401): for any method other than the literal
strings GET, HEAD, OPTIONS, the read-only gate runs first and returns a
read-only error naming `method path` before any other step. -/
def makeRequest (c : ClientState) (ctx : Ctx) (now : Int) (env : ReqEnv)
    (method path : String) (body : Option String) : ReqOutcome :=
  if method != "GET" && method != "HEAD" && method != "OPTIONS" then
    match validateWriteOperation c (method ++ " " ++ path) with
    | some e => ⟨c, none, some e, 0, 0⟩
    | none => makeRequestAfterGate c ctx now env method
  else makeRequestAfterGate c ctx now env method

/-- GET (client.go:468). -/
def GET (c : ClientState) (ctx : Ctx) (now : Int) (env : ReqEnv) (path : String) : ReqOutcome :=
  makeRequest c ctx now env "GET" path none

/-- POST (client.go:473). -/
def POST (c : ClientState) (ctx : Ctx) (now : Int) (env : ReqEnv) (path : String)
    (body : Option String) : ReqOutcome :=
  makeRequest c ctx now env "POST" path body

/-- PUT (client.go:478). -/
def PUT (c : ClientState) (ctx : Ctx) (now : Int) (env : ReqEnv) (path : String)
    (body : Option String) : ReqOutcome :=
  makeRequest c ctx now env "PUT" path body

/-- DELETE (client.go:483). -/
def DELETE (c : ClientState) (ctx : Ctx) (now : Int) (env : ReqEnv) (path : String) : ReqOutcome :=
  makeRequest c ctx now env "DELETE" path none

/-- PATCH (client.go:488). -/
def PATCH (c : ClientState) (ctx : Ctx) (now : Int) (env : ReqEnv) (path : String)
    (body : Option String) : ReqOutcome :=
  makeRequest c ctx now env "PATCH" path body

/-- C1: for every mutating method in POST, PUT, PATCH, DELETE and every path
and body, a client with readOnly = true makes makeRequest return a read-only
error whose operation (and hence message) names `method path`, with no
transport call, no token-endpoint call, no rate-limit permit consumed, and
the whole client state (token fields and rate limiter included) unchanged. -/
theorem readonly_gate_blocks_mutations
    (c : ClientState) (ctx : Ctx) (now : Int) (env : ReqEnv) (m path : String)
    (body : Option String)
    (hro : c.readOnly = true)
    (hm : m = "POST" ∨ m = "PUT" ∨ m = "PATCH" ∨ m = "DELETE") :
    makeRequest c ctx now env m path body =
      ⟨c, none, some (GoError.readOnlyMode (m ++ " " ++ path)), 0, 0⟩ ∧
    (GoError.readOnlyMode (m ++ " " ++ path)).message =
      "operation " ++ (m ++ " " ++ path) ++
        " not allowed in read-only mode. Set BOKIO_READ_ONLY=false to enable write operations" := by
  constructor
  · rcases hm with h | h | h | h <;> subst h <;>
      simp [makeRequest, validateWriteOperation, hro]
  · rfl

def c1client : ClientState :=
  ⟨"https://api.bokio.se", "id", "secret", "tok", "ref", 1000, "t1", "company",
    some 10, 3, true⟩

def c1env : ReqEnv := ⟨.error "unused", fun _ => .error "unused", false⟩

/-- C1 witness: the gate at a concrete client, POST /customers. -/
theorem readonly_gate_blocks_mutations_witness :
    c1client.readOnly = true ∧
    makeRequest c1client ⟨false⟩ 0 c1env "POST" "/customers" (some "x") =
      ⟨c1client, none, some (GoError.readOnlyMode "POST /customers"), 0, 0⟩ :=
  ⟨rfl, (readonly_gate_blocks_mutations c1client ⟨false⟩ 0 c1env "POST" "/customers"
    (some "x") rfl (Or.inl rfl)).1⟩

/-- C2: ensureValidToken fails with the not-authenticated error (and no
token-endpoint call) exactly when the stored access token is empty;
otherwise, when now + 5 minutes is past the stored expiry and a refresh
token exists it returns the result of RefreshAccessToken; otherwise it
succeeds with no state change and no token-endpoint call. -/
theorem ensureValidToken_cases (c : ClientState) (now : Int) (http : Except String HttpResp) :
    (c.accessToken = "" →
      ensureValidToken c now http = ⟨c, some GoError.notAuthenticated, 0⟩) ∧
    (c.accessToken ≠ "" → now + 5 * 60 > c.tokenExpiry → c.refreshToken ≠ "" →
      ensureValidToken c now http = RefreshAccessToken c now http) ∧
    (c.accessToken ≠ "" → ¬(now + 5 * 60 > c.tokenExpiry ∧ c.refreshToken ≠ "") →
      ensureValidToken c now http = ⟨c, none, 0⟩) := by
  refine ⟨fun h => ?_, fun h1 h2 h3 => ?_, fun h1 h2 => ?_⟩
  · unfold ensureValidToken
    rw [if_pos h]
  · unfold ensureValidToken
    rw [if_neg h1, if_pos ⟨h2, h3⟩]
  · unfold ensureValidToken
    rw [if_neg h1, if_neg h2]

def c2client : ClientState :=
  ⟨"https://api.bokio.se", "id", "secret", "", "", 0, "", "", none, 3, false⟩

/-- C2 witness: empty access token at a concrete client. -/
theorem ensureValidToken_cases_witness :
    ensureValidToken c2client 0 (.error "down") =
      ⟨c2client, some GoError.notAuthenticated, 0⟩ :=
  (ensureValidToken_cases c2client 0 (.error "down")).1 rfl

/-- C3: RefreshAccessToken with an empty stored refresh token fails with
the no-refresh-token error and performs zero token-endpoint calls; and on
every failure (no refresh token, network error, non-200 status, body parse
failure) the entire client state — token fields included — is exactly what
it was before the call. -/
theorem refreshAccessToken_failure_frame
    (c : ClientState) (now : Int) (http : Except String HttpResp) :
    (c.refreshToken = "" →
      RefreshAccessToken c now http = ⟨c, some GoError.noRefreshToken, 0⟩) ∧
    (∀ e : GoError, (RefreshAccessToken c now http).err = some e →
      (RefreshAccessToken c now http).state = c) := by
  constructor
  · intro h
    simp [RefreshAccessToken, h]
  · intro e he
    by_cases h : c.refreshToken = ""
    · simp [RefreshAccessToken, h]
    · cases http with
      | error s => simp [RefreshAccessToken, h]
      | ok resp =>
        by_cases hs : resp.status = 200
        · cases hb : resp.body.asToken with
          | none => simp [RefreshAccessToken, h, hs, hb]
          | some tr => simp [RefreshAccessToken, h, hs, hb] at he
        · simp [RefreshAccessToken, h, hs]

def c3client : ClientState :=
  ⟨"https://api.bokio.se", "id", "secret", "tok", "", 0, "t1", "company", none, 3, false⟩

/-- C3 witness: empty refresh token at a concrete client. -/
theorem refreshAccessToken_failure_frame_witness :
    RefreshAccessToken c3client 0 (.error "down") =
      ⟨c3client, some GoError.noRefreshToken, 0⟩ :=
  (refreshAccessToken_failure_frame c3client 0 (.error "down")).1 rfl

/-- Helper: a transport answering a retryable 503 on the first `b` attempts
(counting from `a`) and 200 on attempt `a + b` makes the retry loop return
the 200 response after exactly `a + b + 1` cumulative transport calls. -/
theorem retryLoop_retryable_then_ok (t : Nat → Except String HttpResp) (r503 r200 : HttpResp)
    (h503 : r503.status = 503) (h200 : r200.status = 200) :
    ∀ b a, (∀ i, i < b → t (a + i) = .ok r503) → t (a + b) = .ok r200 →
      retryLoop t a b = (.ok r200, a + b + 1) := by
  intro b
  induction b with
  | zero =>
    intro a hpre hend
    unfold retryLoop
    rw [Nat.add_zero] at hend
    rw [hend]
  | succ n ih =>
    intro a hpre hend
    have h0 : t a = .ok r503 := by
      have := hpre 0 (Nat.succ_pos n)
      rwa [Nat.add_zero] at this
    have hretry : shouldRetry r503.status = true := by rw [h503]; rfl
    unfold retryLoop
    rw [h0]
    simp only [hretry, if_true]
    have hpre' : ∀ i, i < n → t (a + 1 + i) = .ok r503 := by
      intro i hi
      have : a + 1 + i = a + (i + 1) := by omega
      rw [this]
      exact hpre (i + 1) (by omega)
    have hend' : t (a + 1 + n) = .ok r200 := by
      have : a + 1 + n = a + (n + 1) := by omega
      rw [this]
      exact hend
    rw [ih (a + 1) hpre' hend']
    refine congrArg (Prod.mk _) ?_
    omega

/-- Helper: a first-attempt response that does not satisfy the retry
condition ends the loop after exactly one transport call. -/
theorem retryLoop_no_retry (t : Nat → Except String HttpResp) (r : HttpResp) (b : Nat)
    (hnr : shouldRetry r.status = false) (h0 : t 0 = .ok r) :
    retryLoop t 0 b = (.ok r, 1) := by
  unfold retryLoop
  rw [h0]
  cases b with
  | zero => rfl
  | succ n => simp [hnr]

/-- Helper: with an uncancelled context, a non-empty access token and no
refresh token, a GET reaches the dispatch phase with no token-endpoint
call, through a state that differs from the input at most in the
rate-limiter bucket. -/
theorem makeRequest_get_reaches_dispatch (c : ClientState) (ctx : Ctx) (now : Int)
    (env : ReqEnv) (path : String)
    (hctx : ctx.canceled = false) (htok : c.accessToken ≠ "") (hrt : c.refreshToken = "") :
    ∃ c₁ : ClientState, c₁.maxRetries = c.maxRetries ∧
      makeRequest c ctx now env "GET" path none = dispatchRequest c₁ env 0 "GET" := by
  cases hrl : c.rateLimiter with
  | none =>
    refine ⟨c, rfl, ?_⟩
    simp [makeRequest, makeRequestAfterGate, acquirePermit, hrl, hctx,
      ensureValidToken, htok, hrt]
  | some n =>
    refine ⟨{ c with rateLimiter := some (n - 1) }, rfl, ?_⟩
    simp [makeRequest, makeRequestAfterGate, acquirePermit, hrl, hctx,
      ensureValidToken, htok, hrt]

/-- Helper: dispatch of a supported method whose retry loop ends in a
received response classifies it by status. -/
theorem dispatchRequest_ok (c₁ : ClientState) (env : ReqEnv) (tc : Nat) (m : String)
    (r : HttpResp) (n : Nat)
    (hsup : supportedMethod m = true)
    (hex : restyExecute env.transport c₁.maxRetries = (.ok r, n)) :
    dispatchRequest c₁ env tc m =
      if 400 ≤ r.status then ⟨c₁, some r, some (.api (handleAPIError r)), n, tc⟩
      else ⟨c₁, some r, none, n, tc⟩ := by
  unfold dispatchRequest
  rw [if_pos hsup, hex]

/-- C4: the retry condition holds exactly for statuses that are at least
500 or equal to 429; a transport answering 503 on the first maxRetries
attempts and then 200 makes a GET return the 200 response with no error
after exactly maxRetries + 1 transport calls; a transport always answering
404 makes the GET return the classified APIError alongside the response
after exactly one transport call (non-429 4xx are never retried). -/
theorem retry_policy_bounds (c : ClientState) (ctx : Ctx) (now : Int) (path : String)
    (env503 env404 : ReqEnv) (r503 r200 r404 : HttpResp)
    (hctx : ctx.canceled = false) (htok : c.accessToken ≠ "") (hrt : c.refreshToken = "")
    (h503 : r503.status = 503) (h200 : r200.status = 200) (h404 : r404.status = 404)
    (htr1 : ∀ i, i < c.maxRetries → env503.transport i = .ok r503)
    (htr2 : env503.transport c.maxRetries = .ok r200)
    (htr3 : ∀ i, env404.transport i = .ok r404) :
    (∀ s : Nat, shouldRetry s = true ↔ (500 ≤ s ∨ s = 429)) ∧
    ((makeRequest c ctx now env503 "GET" path none).resp = some r200 ∧
     (makeRequest c ctx now env503 "GET" path none).err = none ∧
     (makeRequest c ctx now env503 "GET" path none).transportCalls = c.maxRetries + 1) ∧
    ((makeRequest c ctx now env404 "GET" path none).resp = some r404 ∧
     (makeRequest c ctx now env404 "GET" path none).err = some (.api (handleAPIError r404)) ∧
     (makeRequest c ctx now env404 "GET" path none).transportCalls = 1) := by
  refine ⟨fun s => by simp [shouldRetry], ?_, ?_⟩
  · obtain ⟨c₁, hmr, heq⟩ := makeRequest_get_reaches_dispatch c ctx now env503 path hctx htok hrt
    have hloop : restyExecute env503.transport c₁.maxRetries = (.ok r200, c.maxRetries + 1) := by
      unfold restyExecute
      rw [hmr]
      have := retryLoop_retryable_then_ok env503.transport r503 r200 h503 h200
        c.maxRetries 0 (fun i hi => by simpa using htr1 i hi) (by simpa using htr2)
      simpa using this
    rw [heq, dispatchRequest_ok c₁ env503 0 "GET" r200 (c.maxRetries + 1) (by rfl) hloop,
      if_neg (by omega : ¬ 400 ≤ r200.status)]
    exact ⟨rfl, rfl, rfl⟩
  · obtain ⟨c₁, hmr, heq⟩ := makeRequest_get_reaches_dispatch c ctx now env404 path hctx htok hrt
    have hloop : restyExecute env404.transport c₁.maxRetries = (.ok r404, 1) := by
      unfold restyExecute
      exact retryLoop_no_retry env404.transport r404 c₁.maxRetries (by rw [h404]; rfl) (htr3 0)
    rw [heq, dispatchRequest_ok c₁ env404 0 "GET" r404 1 (by rfl) hloop,
      if_pos (by omega : 400 ≤ r404.status)]
    exact ⟨rfl, rfl, rfl⟩

def c4client : ClientState :=
  ⟨"https://api.bokio.se", "id", "secret", "tok", "", 9999999, "t1", "company",
    some 10, 2, false⟩

def resp200 : HttpResp := ⟨200, ⟨"ok", none, none⟩⟩
def resp503 : HttpResp := ⟨503, ⟨"bad gateway", none, none⟩⟩
def resp404 : HttpResp := ⟨404, ⟨"not found", none, none⟩⟩

def c4env503 : ReqEnv :=
  ⟨.error "unused", fun i => if i < 2 then .ok resp503 else .ok resp200, false⟩

def c4env404 : ReqEnv := ⟨.error "unused", fun _ => .ok resp404, false⟩

/-- C4 witness: maxRetries = 2, a transport with two 503s then a 200, and
a transport of constant 404s, at a concrete client. -/
theorem retry_policy_bounds_witness :
    (makeRequest c4client ⟨false⟩ 0 c4env503 "GET" "/x" none).transportCalls =
      c4client.maxRetries + 1 ∧
    (makeRequest c4client ⟨false⟩ 0 c4env404 "GET" "/x" none).transportCalls = 1 := by
  have h := retry_policy_bounds c4client ⟨false⟩ 0 "/x" c4env503 c4env404 resp503 resp200 resp404
    rfl (by decide) rfl rfl rfl rfl
    (fun i hi => by
      show (if i < 2 then Except.ok resp503 else Except.ok resp200) = Except.ok resp503
      exact if_pos hi)
    (by rfl)
    (fun i => rfl)
  exact ⟨h.2.1.2.2, h.2.2.2.2⟩

def c5base : ClientState :=
  ⟨"https://api.bokio.se", "id", "secret", "", "", 0, "", "", none, 3, false⟩

/-- C5 counterexample: a reachable state (obtained through the public
SetTokens mutator) whose access token is the non-empty string "tok" but
whose stored expiry (50) lies before the current time (100): the claimed
invariant says IsAuthenticated must return true there, but the code also
requires the current time to be before the expiry and returns false. -/
theorem isAuthenticated_nonempty_counterexample :
    (SetTokens c5base "tok" "ref" 50).accessToken ≠ "" ∧
    IsAuthenticated (SetTokens c5base "tok" "ref" 50) 100 = false := by
  exact ⟨by decide, rfl⟩

/-- C5 amended: in OAuth2 mode IsAuthenticated returns true if and only if
the stored access token is non-empty AND the current time lies strictly
before the stored expiry. -/
theorem isAuthenticated_iff_nonempty_and_unexpired (c : ClientState) (now : Int) :
    IsAuthenticated c now = true ↔ (c.accessToken ≠ "" ∧ now < c.tokenExpiry) := by
  simp [IsAuthenticated]

/-- C10: SetTokens followed by GetTokens returns exactly the stored triple
(empty strings and past timestamps included), and SetTokens with an empty
access token makes IsAuthenticated false at every instant, so it moves an
authenticated client back to unauthenticated. -/
theorem setTokens_getTokens_roundtrip (c : ClientState) (a r : String) (e t now : Int) :
    GetTokens (SetTokens c a r e) = (a, r, e) ∧
    IsAuthenticated (SetTokens c "" "" t) now = false := by
  exact ⟨rfl, by simp [IsAuthenticated, SetTokens]⟩

/-- C7: a successful RefreshAccessToken (non-empty stored refresh token,
200 response, parseable body) overwrites the access token and the expiry
from the response, replaces the refresh token only when the response
carries a non-empty one (keeping the old one otherwise), and leaves every
other client field — tenantID and tenantType included — unchanged (the
record update touches only the three token fields). -/
theorem refresh_success_token_update (c : ClientState) (now : Int) (resp : HttpResp)
    (tr : TokenResponse)
    (hrt : c.refreshToken ≠ "") (hs : resp.status = 200) (hb : resp.body.asToken = some tr) :
    RefreshAccessToken c now (.ok resp) =
      ⟨{ c with
          accessToken := tr.accessToken,
          refreshToken := if tr.refreshToken ≠ "" then tr.refreshToken else c.refreshToken,
          tokenExpiry := now + tr.expiresIn }, none, 1⟩ ∧
    (RefreshAccessToken c now (.ok resp)).state.tenantID = c.tenantID ∧
    (RefreshAccessToken c now (.ok resp)).state.tenantType = c.tenantType := by
  have h : RefreshAccessToken c now (.ok resp) =
      ⟨{ c with
          accessToken := tr.accessToken,
          refreshToken := if tr.refreshToken ≠ "" then tr.refreshToken else c.refreshToken,
          tokenExpiry := now + tr.expiresIn }, none, 1⟩ := by
    simp [RefreshAccessToken, hrt, hs, hb]
  exact ⟨h, by rw [h], by rw [h]⟩

def c7client : ClientState :=
  ⟨"https://api.bokio.se", "id", "secret", "old-tok", "old-ref", 100, "t1", "company",
    some 10, 3, false⟩

def c7resp : HttpResp :=
  ⟨200, ⟨"body", some ⟨"", "", "new-tok", "bearer", 3600, ""⟩, none⟩⟩

/-- C7 witness: a refresh response that rotates the access token but omits
a new refresh token, at a concrete client; the old refresh token and the
tenant fields survive. -/
theorem refresh_success_token_update_witness :
    RefreshAccessToken c7client 1000 (.ok c7resp) =
      ⟨{ c7client with
          accessToken := "new-tok",
          refreshToken := "old-ref",
          tokenExpiry := 1000 + 3600 }, none, 1⟩ ∧
    (RefreshAccessToken c7client 1000 (.ok c7resp)).state.tenantID = "t1" := by
  have h := refresh_success_token_update c7client 1000 c7resp ⟨"", "", "new-tok", "bearer", 3600, ""⟩
    (by decide) rfl rfl
  exact ⟨h.1, h.2.1⟩

def c8base : ClientState :=
  ⟨"https://api.bokio.se", "id", "secret", "", "", 0, "old-tenant", "old-type",
    none, 3, false⟩

def c8resp : HttpResp :=
  ⟨200, ⟨"body", some ⟨"tid", "company", "", "bearer", 3600, "ref"⟩, none⟩⟩

/-- C8 counterexample: a token-endpoint response with a 200 status and a
valid JSON body whose access_token is the empty string: ExchangeCodeForToken
succeeds (no error), but IsAuthenticated immediately afterwards returns
false, against the claim that it returns true for every 200/valid-JSON
response. -/
theorem exchange_roundtrip_counterexample :
    (ExchangeCodeForToken c8base 1000 (.ok c8resp)).err = none ∧
    IsAuthenticated (ExchangeCodeForToken c8base 1000 (.ok c8resp)).state 1000 = false := by
  exact ⟨rfl, rfl⟩

/-- C8 amended: for every token-endpoint response with a 200 status and a
valid JSON body whose parsed access_token is non-empty and whose expires_in
is positive, a successful ExchangeCodeForToken followed immediately (same
instant) by IsAuthenticated returns true, and GetTenantInfo returns exactly
the tenant_id and tenant_type parsed from that token response. -/
theorem exchange_roundtrip_amended (c : ClientState) (now : Int) (resp : HttpResp)
    (tr : TokenResponse)
    (hs : resp.status = 200) (hb : resp.body.asToken = some tr)
    (hat : tr.accessToken ≠ "") (hexp : 0 < tr.expiresIn) :
    (ExchangeCodeForToken c now (.ok resp)).err = none ∧
    IsAuthenticated (ExchangeCodeForToken c now (.ok resp)).state now = true ∧
    GetTenantInfo (ExchangeCodeForToken c now (.ok resp)).state = (tr.tenantID, tr.tenantType) := by
  have h : ExchangeCodeForToken c now (.ok resp) =
      ⟨{ c with
          accessToken := tr.accessToken,
          refreshToken := tr.refreshToken,
          tokenExpiry := now + tr.expiresIn,
          tenantID := tr.tenantID,
          tenantType := tr.tenantType }, none, 1⟩ := by
    simp [ExchangeCodeForToken, hs, hb]
  rw [h]
  refine ⟨rfl, ?_, rfl⟩
  simp [IsAuthenticated, hat]
  omega

def c8goodresp : HttpResp :=
  ⟨200, ⟨"body", some ⟨"tid", "company", "tok", "bearer", 3600, "ref"⟩, none⟩⟩

/-- C8 witness: the amended round-trip at a concrete client and response. -/
theorem exchange_roundtrip_amended_witness :
    IsAuthenticated (ExchangeCodeForToken c8base 1000 (.ok c8goodresp)).state 1000 = true ∧
    GetTenantInfo (ExchangeCodeForToken c8base 1000 (.ok c8goodresp)).state =
      ("tid", "company") := by
  have h := exchange_roundtrip_amended c8base 1000 c8goodresp
    ⟨"tid", "company", "tok", "bearer", 3600, "ref"⟩ rfl rfl (by decide) (by decide)
  exact ⟨h.2.1, h.2.2⟩

/-- Set only the read-only flag of a client state. -/
def withReadOnly (c : ClientState) (b : Bool) : ClientState := { c with readOnly := b }

/-- Map `withReadOnly` over an outcome's final state. -/
def outcomeWithReadOnly (o : ReqOutcome) (b : Bool) : ReqOutcome :=
  { o with state := withReadOnly o.state b }


/-- Map `withReadOnly` over an auth result's state. -/
def authResultWithReadOnly (r : AuthResult) (b : Bool) : AuthResult :=
  ⟨withReadOnly r.state b, r.err, r.tokenCalls⟩

/-- Helper: the rate-limiter select never reads the readOnly flag. -/
theorem acquirePermit_withReadOnly (c : ClientState) (ctx : Ctx) (p b : Bool) :
    acquirePermit (withReadOnly c b) ctx p =
      (withReadOnly (acquirePermit c ctx p).1 b, (acquirePermit c ctx p).2) := by
  unfold acquirePermit withReadOnly
  dsimp only
  cases h : c.rateLimiter with
  | none => simp [h]
  | some n =>
    dsimp only
    split
    · split <;> simp [h]
    · simp [h]

/-- Helper: token refresh never reads the readOnly flag. -/
theorem refreshAccessToken_withReadOnly (c : ClientState) (now : Int)
    (http : Except String HttpResp) (b : Bool) :
    RefreshAccessToken (withReadOnly c b) now http =
      authResultWithReadOnly (RefreshAccessToken c now http) b := by
  unfold RefreshAccessToken withReadOnly authResultWithReadOnly
  dsimp only
  split
  · rfl
  · rcases http with e | resp
    · rfl
    · dsimp only
      split
      · rfl
      · cases hb : resp.body.asToken with
        | none => rfl
        | some tr =>
          split <;> rfl

/-- Helper: token validation never reads the readOnly flag. -/
theorem ensureValidToken_withReadOnly (c : ClientState) (now : Int)
    (http : Except String HttpResp) (b : Bool) :
    ensureValidToken (withReadOnly c b) now http =
      authResultWithReadOnly (ensureValidToken c now http) b := by
  unfold ensureValidToken
  dsimp only [withReadOnly]
  split
  · rfl
  · split
    · exact refreshAccessToken_withReadOnly c now http b
    · rfl

/-- Helper: dispatch never reads the readOnly flag. -/
theorem dispatchRequest_withReadOnly (c : ClientState) (env : ReqEnv) (tc : Nat)
    (m : String) (b : Bool) :
    dispatchRequest (withReadOnly c b) env tc m =
      outcomeWithReadOnly (dispatchRequest c env tc m) b := by
  unfold dispatchRequest withReadOnly outcomeWithReadOnly
  dsimp only
  split
  · rcases h : restyExecute env.transport c.maxRetries with ⟨r, n⟩
    rcases r with e | resp
    · rfl
    · dsimp only
      split <;> rfl
  · rfl

/-- Helper: nothing after the read-only gate reads the readOnly flag, so
the whole pipeline after the gate commutes with setting it. -/
theorem makeRequestAfterGate_withReadOnly (c : ClientState) (ctx : Ctx) (now : Int)
    (env : ReqEnv) (m : String) (b : Bool) :
    makeRequestAfterGate (withReadOnly c b) ctx now env m =
      outcomeWithReadOnly (makeRequestAfterGate c ctx now env m) b := by
  unfold makeRequestAfterGate
  rw [acquirePermit_withReadOnly]
  rcases h : acquirePermit c ctx env.pick with ⟨c₁, err⟩
  rcases err with _ | e
  · dsimp only
    rw [ensureValidToken_withReadOnly]
    rcases hr : ensureValidToken c₁ now env.refreshHttp with ⟨c₂, err₂, tc⟩
    rcases err₂ with _ | e₂
    · dsimp only [authResultWithReadOnly]
      rw [dispatchRequest_withReadOnly]
    · rfl
  · rfl

/-- Helper: the rate-limiter select only ever errors with the cancellation
error. -/
theorem acquirePermit_err_cases (c : ClientState) (ctx : Ctx) (p : Bool) (e : GoError)
    (h : (acquirePermit c ctx p).2 = some e) : e = GoError.ctxCanceled := by
  unfold acquirePermit at h
  cases hrl : c.rateLimiter with
  | none => rw [hrl] at h; simp at h
  | some n =>
    rw [hrl] at h
    dsimp only at h
    by_cases hc : ctx.canceled = true
    · rw [if_pos hc] at h
      by_cases hp : 0 < n ∧ p = true
      · rw [if_pos hp] at h; simp at h
      · rw [if_neg hp] at h
        simpa using h.symm
    · rw [if_neg hc] at h; simp at h

/-- Helper: dispatch never produces a read-only error. -/
theorem dispatchRequest_err_not_readonly (c : ClientState) (env : ReqEnv) (tc : Nat)
    (m op : String) :
    (dispatchRequest c env tc m).err ≠ some (GoError.readOnlyMode op) := by
  unfold dispatchRequest
  split
  · rcases h : restyExecute env.transport c.maxRetries with ⟨r, n⟩
    rcases r with e | resp
    · simp
    · dsimp only
      split <;> simp
  · simp

/-- Helper: token validation never produces a read-only error. -/
theorem ensureValidToken_err_not_readonly (c : ClientState) (now : Int)
    (http : Except String HttpResp) (op : String) :
    (ensureValidToken c now http).err ≠ some (GoError.readOnlyMode op) := by
  unfold ensureValidToken RefreshAccessToken
  split
  · simp
  · split
    · split
      · simp
      · rcases http with e | resp
        · simp
        · dsimp only
          split
          · simp
          · cases hb : resp.body.asToken <;> simp
    · simp

/-- Helper: the pipeline after the read-only gate never produces a
read-only error. -/
theorem makeRequestAfterGate_no_readonly_error (c : ClientState) (ctx : Ctx) (now : Int)
    (env : ReqEnv) (m : String) (op : String) :
    (makeRequestAfterGate c ctx now env m).err ≠ some (GoError.readOnlyMode op) := by
  unfold makeRequestAfterGate
  rcases h : acquirePermit c ctx env.pick with ⟨c₁, err⟩
  rcases err with _ | e
  · dsimp only
    rcases hr : ensureValidToken c₁ now env.refreshHttp with ⟨c₂, err₂, tc⟩
    rcases err₂ with _ | e₂
    · exact dispatchRequest_err_not_readonly c₂ env tc m op
    · have := ensureValidToken_err_not_readonly c₁ now env.refreshHttp op
      rw [hr] at this
      simpa using this
  · have he := acquirePermit_err_cases c ctx env.pick e (by rw [h])
    subst he
    simp

/-- C6: for every non-mutating method in GET, HEAD, OPTIONS and every path,
a client with readOnly = true is not blocked by a read-only error: the call
proceeds through rate limiting, token check and dispatch with exactly the
outcome of the same call on the same client with readOnly = false (the
final states differ only in the readOnly flag itself), and the returned
error is never a read-only error. -/
theorem readonly_mode_does_not_block_reads (c : ClientState) (ctx : Ctx) (now : Int)
    (env : ReqEnv) (m path : String) (body : Option String)
    (hm : m = "GET" ∨ m = "HEAD" ∨ m = "OPTIONS") :
    makeRequest (withReadOnly c true) ctx now env m path body =
      outcomeWithReadOnly (makeRequest (withReadOnly c false) ctx now env m path body) true ∧
    ∀ op, (makeRequest (withReadOnly c true) ctx now env m path body).err ≠
      some (GoError.readOnlyMode op) := by
  have hgate : ∀ b : Bool, makeRequest (withReadOnly c b) ctx now env m path body =
      makeRequestAfterGate (withReadOnly c b) ctx now env m := by
    intro b
    rcases hm with h | h | h <;> subst h <;> rfl
  constructor
  · rw [hgate true, hgate false, makeRequestAfterGate_withReadOnly c ctx now env m true,
      makeRequestAfterGate_withReadOnly c ctx now env m false]
    rfl
  · intro op
    rw [hgate true]
    exact makeRequestAfterGate_no_readonly_error (withReadOnly c true) ctx now env m op

def c6client : ClientState :=
  ⟨"https://api.bokio.se", "id", "secret", "tok", "", 9999999, "t1", "company",
    some 5, 3, false⟩

def c6resp : HttpResp := ⟨200, ⟨"items", none, none⟩⟩

def c6env : ReqEnv := ⟨.error "unused", fun _ => .ok c6resp, false⟩

/-- C6 witness: GET /journal-entries on a concrete read-only client equals
the read-write outcome with only the flag differing. -/
theorem readonly_mode_does_not_block_reads_witness :
    makeRequest (withReadOnly c6client true) ⟨false⟩ 0 c6env "GET" "/journal-entries" none =
      outcomeWithReadOnly
        (makeRequest (withReadOnly c6client false) ⟨false⟩ 0 c6env "GET" "/journal-entries" none)
        true :=
  (readonly_mode_does_not_block_reads c6client ⟨false⟩ 0 c6env "GET" "/journal-entries" none
    (Or.inl rfl)).1

def c9client : ClientState :=
  ⟨"https://api.bokio.se", "id", "secret", "", "", 0, "", "", none, 3, false⟩

def c9env : ReqEnv := ⟨.error "unused", fun _ => .error "unused", false⟩

/-- C9 counterexample: a client whose rate limiter is disabled
(rateLimit <= 0, a configuration the spec itself declares valid) and that
holds no access token, called with an already-cancelled context: the code
never consults the context outside the rate-limiter select, so the call
proceeds to the token check and returns the not-authenticated error, not
the context's cancellation error that the claim requires for every method
and path. -/
theorem cancellation_counterexample :
    (makeRequest c9client ⟨true⟩ 0 c9env "GET" "/x" none).err =
      some GoError.notAuthenticated ∧
    (makeRequest c9client ⟨true⟩ 0 c9env "GET" "/x" none).err ≠
      some GoError.ctxCanceled := by
  exact ⟨rfl, by decide⟩

/-- C9 amended: cancellation is observed only at the rate-limiter select.
When the read-only gate does not fire, the rate limiter is enabled with no
permit currently buffered, and the context is already cancelled, the call
returns the context's cancellation error with no transport call, no
token-endpoint call, and the client state unchanged (this is also the
embedding of cancellation unblocking a wait for a permit).  With the
limiter disabled, or with a permit buffered and the select picking the
permit branch, an already-cancelled context does not short-circuit the
call. -/
theorem cancellation_at_rate_limiter (c : ClientState) (ctx : Ctx) (now : Int)
    (env : ReqEnv) (m path : String) (body : Option String)
    (hc : ctx.canceled = true)
    (hrl : c.rateLimiter = some 0)
    (hgate : (m != "GET" && m != "HEAD" && m != "OPTIONS") = true → c.readOnly = false) :
    makeRequest c ctx now env m path body =
      ⟨c, none, some GoError.ctxCanceled, 0, 0⟩ := by
  have hafter : makeRequestAfterGate c ctx now env m =
      ⟨c, none, some GoError.ctxCanceled, 0, 0⟩ := by
    unfold makeRequestAfterGate acquirePermit
    rw [hrl]
    dsimp only
    rw [if_pos hc, if_neg (by simp : ¬((0 : Nat) < 0 ∧ env.pick = true))]
  unfold makeRequest
  by_cases hmm : (m != "GET" && m != "HEAD" && m != "OPTIONS") = true
  · rw [if_pos hmm]
    unfold validateWriteOperation
    rw [hgate hmm]
    exact hafter
  · rw [if_neg hmm]
    exact hafter

def c9client2 : ClientState :=
  ⟨"https://api.bokio.se", "id", "secret", "tok", "ref", 9999, "t1", "company",
    some 0, 3, false⟩

/-- C9 amended witness: POST on a concrete client with an exhausted permit
bucket and a cancelled context. -/
theorem cancellation_at_rate_limiter_witness :
    makeRequest c9client2 ⟨true⟩ 0 c9env "POST" "/customers" (some "x") =
      ⟨c9client2, none, some GoError.ctxCanceled, 0, 0⟩ :=
  cancellation_at_rate_limiter c9client2 ⟨true⟩ 0 c9env "POST" "/customers" (some "x")
    rfl rfl (fun _ => rfl)
